import Mathlib

/-!
Verification of the control-props toggle exercise (`src/exercise/06.js`).

The file shallowly embeds the JavaScript source:
* `ToggleState` models the reducer state object `{on: boolean, ...}`; the
  `rest` field models any further (non-`on`) properties a caller's custom
  state object may carry, so that dropping versus spreading them is visible.
* `Action` models the action object `{type, initialState}`; `type` is an
  arbitrary string, `initialState` is absent (`none`) or present.
* Throwing is modelled with `Except String`; a JS value that may be
  `undefined` is modelled with `Option`.
* The `onChange` callback is modelled by returning the list of invocations
  `(newState, action)` that the dispatch performs, in order.
-/

namespace ControlProps

/-- The reducer state object. `«on»` is the boolean flag (quoted because
`on` is a Lean keyword); `rest` models any additional properties of the
state object beyond `on` (JS objects are open; we represent the extra
fields as an association list). -/
structure ToggleState where
  «on» : Bool
  rest : List (String × Nat) := []
deriving DecidableEq, Repr

/-- `actionTypes.toggle` from the source. -/
def actionTypes.toggle : String := "toggle"

/-- `actionTypes.reset` from the source. -/
def actionTypes.reset : String := "reset"

/-- An action object `{type, initialState}`. `initialState` is `none` when
the property is absent (`undefined`), as in the toggle action. -/
structure Action where
  type : String
  initialState : Option ToggleState := none
deriving DecidableEq, Repr

/-- `toggleReducer(state, {type, initialState})`: `toggle` returns the fresh
object `{on: !state.on}` (other fields dropped); `reset` returns the carried
`initialState` verbatim (possibly `undefined`, hence `Option` in the result);
any other tag throws `Unsupported type: ...`. -/
def toggleReducer (state : ToggleState) (a : Action) :
    Except String (Option ToggleState) :=
  if a.type = actionTypes.toggle then
    Except.ok (some { «on» := !state.«on», rest := [] })
  else if a.type = actionTypes.reset then
    Except.ok a.initialState
  else
    Except.error ("Unsupported type: " ++ a.type)

/-- The type of reducers accepted by `useToggle` (custom or the default). -/
abbrev Reducer := ToggleState → Action → Except String (Option ToggleState)

/-- The per-render configuration of `useToggle`: `initialOn` (default
`false`), whether an external `on` value is supplied (`controlledOn`),
whether an `onChange` callback is supplied, and the `readOnly` flag. -/
structure ToggleConfig where
  initialOn : Bool := false
  controlledOn : Option Bool := none
  hasOnChange : Bool := false
  readOnly : Bool := false
deriving DecidableEq, Repr

/-- `const onIsControlled = controlledOn != null`: true exactly when a
non-null/non-undefined `on` value is supplied. -/
def onIsControlled (controlledOn : Option Bool) : Bool :=
  controlledOn.isSome

/-- `const on = onIsControlled ? controlledOn : state.on`: the effective
reported value. -/
def effOn (cfg : ToggleConfig) (state : ToggleState) : Bool :=
  match cfg.controlledOn with
  | some b => b
  | none => state.«on»

/-- `dispatchWithOnChange(action)`, as one step: if uncontrolled, the queued
`dispatch(action)` replaces the internal reducer state with
`reducer(state, action)` (if controlled, the internal state is untouched);
then `newState = reducer({...state, on}, action)` is computed against the
effective `on`; then `onChange?.(newState, action)` runs when a callback is
supplied. The result is the stored internal state (an `Option`, since a
reducer may return `undefined`) paired with the callback invocations; a
reducer throw propagates as `Except.error` (nothing in the dispatch path
catches it). -/
def dispatchWithOnChange (r : Reducer) (cfg : ToggleConfig)
    (state : ToggleState) (action : Action) :
    Except String (Option ToggleState × List (Option ToggleState × Action)) :=
  match (if onIsControlled cfg.controlledOn then Except.ok (some state)
         else r state action) with
  | .error e => .error e
  | .ok newInternal =>
    match r { state with «on» := effOn cfg state } action with
    | .error e => .error e
    | .ok newState =>
      .ok (newInternal, if cfg.hasOnChange then [(newState, action)] else [])

/-- The two dispatch triggers the hook exposes: `toggle()` and `reset()`. -/
inductive HookCall where
  | toggle
  | reset
deriving DecidableEq, Repr

/-- The action each trigger dispatches: `toggle()` sends
`{type: actionTypes.toggle}`; `reset()` sends
`{type: actionTypes.reset, initialState}` with the captured initial state. -/
def hookAction (initialState : ToggleState) : HookCall → Action
  | .toggle => { type := actionTypes.toggle }
  | .reset => { type := actionTypes.reset, initialState := some initialState }

/-- The per-instance state of `useToggle`: the initial state captured once
by `useRef({on: initialOn})`, and the current internal reducer state. -/
structure HookState where
  initialState : ToggleState
  state : ToggleState
deriving DecidableEq, Repr

/-- Hook state at construction: `useRef({on: initialOn})` and
`useReducer(reducer, initialState)` both start from `{on: initialOn}`. -/
def initHook (initialOn : Bool) : HookState :=
  { initialState := { «on» := initialOn }, state := { «on» := initialOn } }

/-- One `toggle()`/`reset()` call on an instance running the default
`toggleReducer`, defined through `dispatchWithOnChange`; the two fallback
branches are unreachable for the hook's own actions (see
`hookStep_dispatch`). Returns the new instance state and the `onChange`
invocations. -/
def hookStep (cfg : ToggleConfig) (hs : HookState) (c : HookCall) :
    HookState × List (Option ToggleState × Action) :=
  match dispatchWithOnChange toggleReducer cfg hs.state (hookAction hs.initialState c) with
  | .ok (some st, calls) => ({ hs with state := st }, calls)
  | .ok (none, calls) => (hs, calls)
  | .error _ => (hs, [])

/-- Reported `on` value of an instance under a given render configuration. -/
def reportedOn (cfg : ToggleConfig) (hs : HookState) : Bool :=
  effOn cfg hs.state

/-- A sequence of `toggle()`/`reset()` calls under a fixed configuration. -/
def runHook (cfg : ToggleConfig) (hs : HookState) : List HookCall → HookState
  | [] => hs
  | c :: cs => runHook cfg (hookStep cfg hs c).1 cs

/-- On the hook's own actions, `hookStep` agrees with `dispatchWithOnChange`
run on the default reducer: the dispatch never throws, never stores
`undefined`, and `hookStep` returns exactly its stored state and calls. -/
theorem hookStep_dispatch (cfg : ToggleConfig) (hs : HookState) (c : HookCall) :
    dispatchWithOnChange toggleReducer cfg hs.state (hookAction hs.initialState c) =
      Except.ok (some (hookStep cfg hs c).1.state, (hookStep cfg hs c).2) := by
  cases c <;> cases h : cfg.controlledOn <;>
    simp [hookStep, dispatchWithOnChange, hookAction, toggleReducer,
      actionTypes.toggle, actionTypes.reset, onIsControlled, effOn, h]

/-- `hookStep` never changes the captured initial state. -/
theorem hookStep_initialState (cfg : ToggleConfig) (hs : HookState) (c : HookCall) :
    (hookStep cfg hs c).1.initialState = hs.initialState := by
  cases c <;> cases h : cfg.controlledOn <;>
    simp [hookStep, dispatchWithOnChange, hookAction, toggleReducer,
      actionTypes.toggle, actionTypes.reset, onIsControlled, effOn, h]

/-- `runHook` never changes the captured initial state. -/
theorem runHook_initialState (cfg : ToggleConfig) (hs : HookState)
    (cs : List HookCall) : (runHook cfg hs cs).initialState = hs.initialState := by
  induction cs generalizing hs with
  | nil => rfl
  | cons c cs ih => rw [runHook, ih, hookStep_initialState]

/-- An uncontrolled render configuration (no external `on` supplied), with
the other inputs arbitrary. -/
def mkUncontrolled (initialOn hasOnChange readOnly : Bool) : ToggleConfig :=
  { initialOn := initialOn, controlledOn := none, hasOnChange := hasOnChange,
    readOnly := readOnly }

/-- A controlled render configuration: external `on` value `b` supplied,
with an `onChange` callback. -/
def mkControlled (initialOn b readOnly : Bool) : ToggleConfig :=
  { initialOn := initialOn, controlledOn := some b, hasOnChange := true,
    readOnly := readOnly }

theorem hookStep_unc_toggle_fst (cfg : ToggleConfig) (hs : HookState)
    (h : cfg.controlledOn = none) :
    (hookStep cfg hs .toggle).1 =
      { hs with state := { «on» := !hs.state.«on», rest := [] } } := by
  cases hc : cfg.hasOnChange <;>
    simp [hookStep, dispatchWithOnChange, hookAction, toggleReducer,
      actionTypes.toggle, actionTypes.reset, onIsControlled, effOn, h, hc]

theorem hookStep_unc_reset_fst (cfg : ToggleConfig) (hs : HookState)
    (h : cfg.controlledOn = none) :
    (hookStep cfg hs .reset).1 = { hs with state := hs.initialState } := by
  cases hc : cfg.hasOnChange <;>
    simp [hookStep, dispatchWithOnChange, hookAction, toggleReducer,
      actionTypes.toggle, actionTypes.reset, onIsControlled, effOn, h, hc]

theorem runHook_append (cfg : ToggleConfig) (hs : HookState)
    (cs ds : List HookCall) :
    runHook cfg hs (cs ++ ds) = runHook cfg (runHook cfg hs cs) ds := by
  induction cs generalizing hs with
  | nil => rfl
  | cons c cs ih => rw [List.cons_append, runHook, runHook, ih]

theorem runHook_unc_toggles_on (cfg : ToggleConfig) (h : cfg.controlledOn = none)
    (n : ℕ) (hs : HookState) :
    (runHook cfg hs (List.replicate n .toggle)).state.«on» =
      xor (decide (n % 2 = 1)) hs.state.«on» := by
  induction n generalizing hs with
  | zero => simp [runHook]
  | succ n ih =>
    rw [List.replicate_succ, runHook, hookStep_unc_toggle_fst cfg hs h, ih]
    rcases Nat.mod_two_eq_zero_or_one n with h2 | h2
    · have h3 : (n + 1) % 2 = 1 := by omega
      simp [h2, h3]
    · have h3 : (n + 1) % 2 = 0 := by omega
      simp [h2, h3]

/-- C6: for every finite sequence of `toggle()` calls on an uncontrolled
instance constructed with `initialOn = false` (any `onChange`/`readOnly`
inputs), the reported `on` value equals whether the number of toggles is
odd. -/
theorem C6_uncontrolled_toggle_parity (hasOnChange readOnly : Bool) (n : ℕ) :
    reportedOn (mkUncontrolled false hasOnChange readOnly)
        (runHook (mkUncontrolled false hasOnChange readOnly) (initHook false)
          (List.replicate n HookCall.toggle)) =
      decide (n % 2 = 1) := by
  simpa [reportedOn, effOn, mkUncontrolled, initHook] using
    runHook_unc_toggles_on (mkUncontrolled false hasOnChange readOnly)
      rfl n (initHook false)

/-- C10: for every input state (whatever extra fields it carries) the
default reducer's result on a toggle action is exactly the two-field-free
object `{on: !state.on}`: the `rest` of the input state is dropped, not
preserved. -/
theorem C10_toggle_drops_extra_fields (st : ToggleState)
    (i : Option ToggleState) :
    toggleReducer st { type := actionTypes.toggle, initialState := i } =
      Except.ok (some { «on» := !st.«on», rest := [] }) := by
  simp [toggleReducer, actionTypes.toggle]

/-- C4 (counterexample to the claim as stated, which quantifies over every
instance): on a controlled instance built with `initialOn = false` but a
controlled `on` value of `true`, calling `reset()` does not restore the
reported `on` value to the captured `initialOn` (it stays the controlled
`true`). -/
theorem C4_counterexample :
    ¬(reportedOn (mkControlled false true false)
        (runHook (mkControlled false true false) (initHook false)
          [HookCall.reset]) = false) := by
  decide

/-- C4 (amended): on every *uncontrolled* instance, after any preceding
calls, `reset()` restores the reported `on` value to the exact `initialOn`
captured at construction; and in every mode the `Reset` action carries, and
the default reducer returns, the captured initial state verbatim. -/
theorem C4_reset_restores_initialOn (initialOn hasOnChange readOnly : Bool)
    (cs : List HookCall) (st init : ToggleState) :
    (reportedOn (mkUncontrolled initialOn hasOnChange readOnly)
        (runHook (mkUncontrolled initialOn hasOnChange readOnly)
          (initHook initialOn) (cs ++ [HookCall.reset])) = initialOn) ∧
    toggleReducer st { type := actionTypes.reset, initialState := some init } =
      Except.ok (some init) := by
  constructor
  · rw [runHook_append, runHook, runHook,
      hookStep_unc_reset_fst (mkUncontrolled initialOn hasOnChange readOnly) _ rfl,
      runHook_initialState]
    simp [reportedOn, effOn, mkUncontrolled, initHook]
  · simp [toggleReducer, actionTypes.toggle, actionTypes.reset]

/-- C1: on a controlled instance (external value `b` supplied, `onChange`
supplied), a `toggle()` call leaves the whole hook state (in particular the
internal reducer state) untouched, leaves the reported `on` value at `b`
before and after, and performs exactly one `onChange` invocation, whose
action has type `toggle` and whose state is the reducer result computed
from the effective value `b`. -/
theorem C1_controlled_toggle (initialOn b readOnly : Bool) (hs : HookState) :
    (hookStep (mkControlled initialOn b readOnly) hs .toggle).1 = hs ∧
    reportedOn (mkControlled initialOn b readOnly)
      (hookStep (mkControlled initialOn b readOnly) hs .toggle).1 = b ∧
    reportedOn (mkControlled initialOn b readOnly) hs = b ∧
    (hookStep (mkControlled initialOn b readOnly) hs .toggle).2 =
      [(some { «on» := !b, rest := [] }, { type := actionTypes.toggle })] := by
  refine ⟨?_, ?_, ?_, ?_⟩ <;>
    simp [hookStep, dispatchWithOnChange, hookAction, toggleReducer,
      actionTypes.toggle, actionTypes.reset, onIsControlled, effOn,
      mkControlled, reportedOn]

/-- C5: for every reducer, configuration, state and action, when an
`onChange` callback is supplied and the reducer succeeds on the
effective-value state, the dispatch invokes the callback exactly once with
`(newState, action)` where `newState = reducer({...state, on}, action)`;
in controlled mode the stored internal state is untouched, in uncontrolled
mode it becomes the reducer result. -/
theorem C5_onChange_payload (r : Reducer) (cfg : ToggleConfig)
    (st : ToggleState) (a : Action) (ns : Option ToggleState)
    (hr : r { st with «on» := effOn cfg st } a = Except.ok ns)
    (hc : cfg.hasOnChange = true) :
    (onIsControlled cfg.controlledOn = true →
      dispatchWithOnChange r cfg st a = Except.ok (some st, [(ns, a)])) ∧
    (onIsControlled cfg.controlledOn = false →
      dispatchWithOnChange r cfg st a = Except.ok (ns, [(ns, a)])) := by
  constructor
  · intro hctl
    simp [dispatchWithOnChange, hctl, hr, hc]
  · intro hctl
    have hnone : cfg.controlledOn = none := by
      cases h : cfg.controlledOn with
      | none => rfl
      | some b => rw [h] at hctl; simp [onIsControlled] at hctl
    have heff : effOn cfg st = st.«on» := by simp [effOn, hnone]
    have hst : ({ st with «on» := effOn cfg st } : ToggleState) = st := by
      rw [heff]
    rw [hst] at hr
    simp [dispatchWithOnChange, hctl, hr, hc, hst]

/-- C5 witness: the controlled branch at a concrete input. -/
theorem C5_onChange_payload_witness :
    dispatchWithOnChange toggleReducer
        { controlledOn := some false, hasOnChange := true }
        { «on» := true, rest := [] } { type := actionTypes.toggle } =
      Except.ok (some { «on» := true, rest := [] },
        [(some { «on» := true, rest := [] },
          { type := actionTypes.toggle })]) := by
  exact (C5_onChange_payload toggleReducer
    { controlledOn := some false, hasOnChange := true }
    { «on» := true, rest := [] } { type := actionTypes.toggle }
    (some { «on» := true, rest := [] }) rfl rfl).1 rfl

/-- C9: the default reducer succeeds exactly on the tags `toggle` and
`reset` (returning the flipped state, resp. the carried initial state),
and on any other tag it throws an error naming the unsupported type; the
dispatch path propagates that error unchanged in every configuration. -/
theorem C9_unknown_tag_throws (st : ToggleState) (i : Option ToggleState)
    (a : Action) (cfg : ToggleConfig) :
    (toggleReducer st { type := actionTypes.toggle, initialState := i } =
      Except.ok (some { «on» := !st.«on», rest := [] })) ∧
    (toggleReducer st { type := actionTypes.reset, initialState := i } =
      Except.ok i) ∧
    (a.type ≠ actionTypes.toggle → a.type ≠ actionTypes.reset →
      toggleReducer st a = Except.error ("Unsupported type: " ++ a.type) ∧
      dispatchWithOnChange toggleReducer cfg st a =
        Except.error ("Unsupported type: " ++ a.type)) := by
  refine ⟨by simp [toggleReducer, actionTypes.toggle],
    by simp [toggleReducer, actionTypes.toggle, actionTypes.reset], ?_⟩
  intro h1 h2
  have hred : toggleReducer st a = Except.error ("Unsupported type: " ++ a.type) := by
    simp [toggleReducer, h1, h2]
  have hred2 : ∀ st2 : ToggleState,
      toggleReducer st2 a = Except.error ("Unsupported type: " ++ a.type) := by
    intro st2
    simp [toggleReducer, h1, h2]
  refine ⟨hred, ?_⟩
  cases hctl : onIsControlled cfg.controlledOn <;>
    simp [dispatchWithOnChange, hctl, hred, hred2]

/-- C9 witness: a concrete unknown tag `bogus` throws, and the throw
passes through the dispatch path. -/
theorem C9_unknown_tag_throws_witness :
    toggleReducer { «on» := false, rest := [] }
        { type := "bogus", initialState := none } =
      Except.error "Unsupported type: bogus" ∧
    dispatchWithOnChange toggleReducer {} { «on» := false, rest := [] }
        { type := "bogus", initialState := none } =
      Except.error "Unsupported type: bogus" := by
  have h := (C9_unknown_tag_throws { «on» := false, rest := [] } none
    { type := "bogus", initialState := none } {}).2.2 (by decide) (by decide)
  exact ⟨h.1, h.2⟩

/-!
Warning hooks. A warning hook is driven by the sequence of its dependency
values, one per render; its `useEffect` body re-runs at the first render
and whenever the dependencies change (shallow comparison), and `warning(c, m)`
prints exactly when `c` is falsy. We model the number of printed warnings.
-/

/-- The renders at which a `useEffect` with the given dependency value per
render re-runs: the first render, and every render whose value differs from
the previous render's. -/
def effectRuns {β : Type} [DecidableEq β] : Option β → List β → List β
  | _, [] => []
  | prev, b :: rest =>
    if prev = some b then effectRuns (some b) rest
    else b :: effectRuns (some b) rest

theorem effectRuns_subset {β : Type} [DecidableEq β] (prev : Option β)
    (l : List β) : ∀ b ∈ effectRuns prev l, b ∈ l := by
  induction l generalizing prev with
  | nil => simp [effectRuns]
  | cons b rest ih =>
    intro x hx
    rw [effectRuns] at hx
    split at hx
    · exact List.mem_cons_of_mem _ (ih _ x hx)
    · rcases List.mem_cons.mp hx with h | h
      · exact h ▸ List.mem_cons_self _ _
      · exact List.mem_cons_of_mem _ (ih _ x h)

theorem effectRuns_replicate {β : Type} [DecidableEq β] (n : ℕ) (b : β) :
    effectRuns (some b) (List.replicate n b) = [] := by
  induction n with
  | zero => rfl
  | succ n ih => simp [List.replicate_succ, effectRuns, ih]

/-- `useControlledSwitchWarning`'s effect body: one warning when
`isControlled && !wasControlled`, one when `!isControlled && wasControlled`
(where `wasControlled` is the first-render mode captured by `useRef`). -/
def switchWarnFire (wasControlled isControlled : Bool) : ℕ :=
  (if isControlled && !wasControlled then 1 else 0) +
  (if !isControlled && wasControlled then 1 else 0)

/-- Total mode-switch warnings over a lifetime, given the `isControlled`
value of each render: `wasControlled` is captured at the first render, and
the effect re-runs exactly when `isControlled` changes (the other
dependencies are constant). -/
def switchWarningCount : List Bool → ℕ
  | [] => 0
  | w :: rest => ((effectRuns none (w :: rest)).map (switchWarnFire w)).sum

/-- Warnings the code actually emits: one per render whose mode differs
both from the previous render's and from the first-render mode. -/
def switchesAway (was : Bool) : Bool → List Bool → ℕ
  | _, [] => 0
  | prev, b :: rest =>
    (if b ≠ prev ∧ b ≠ was then 1 else 0) + switchesAway was b rest

theorem switchWarnFire_eq (w b : Bool) :
    switchWarnFire w b = if b ≠ w then 1 else 0 := by
  cases w <;> cases b <;> decide

theorem effectRuns_switch_sum (w : Bool) (l : List Bool) : ∀ p : Bool,
    ((effectRuns (some p) l).map (switchWarnFire w)).sum = switchesAway w p l := by
  induction l with
  | nil => intro p; rfl
  | cons b rest ih =>
    intro p
    by_cases hb : p = b
    · simp [effectRuns, switchesAway, hb, ih b]
    · have hb2 : ¬((some p : Option Bool) = some b) := by simp [hb]
      simp only [effectRuns, switchesAway, if_neg hb2, List.map_cons,
        List.sum_cons, ih b, switchWarnFire_eq]
      have hbp : b ≠ p := fun h => hb h.symm
      simp [hbp]

/-- C2 (counterexample to the claim as stated): an instance rendered
uncontrolled, then controlled, then uncontrolled again emits only one
mode-switch warning in total, not two: the return to the first-render mode
emits none. -/
theorem C2_counterexample : switchWarningCount [false, true, false] ≠ 2 := by
  decide

/-- C2 (amended): a warning is emitted exactly at those update cycles whose
mode differs both from the previous cycle's mode and from the mode captured
at first render; so switching away from the first-render mode emits exactly
one warning per switch, and switching back to the first-render mode emits
none. In particular uncontrolled→controlled emits one warning, and the
subsequent controlled→uncontrolled emits no further one. -/
theorem C2_switch_warning (w : Bool) (rest : List Bool) :
    switchWarningCount (w :: rest) = switchesAway w w rest ∧
    switchWarningCount [false, true] = 1 ∧
    switchWarningCount [false, true, false] = 1 := by
  refine ⟨?_, by decide, by decide⟩
  have h0 : ¬((none : Option Bool) = some w) := by simp
  simp only [switchWarningCount, effectRuns, if_neg h0, List.map_cons,
    List.sum_cons, effectRuns_switch_sum w rest w]
  have : switchWarnFire w w = 0 := by cases w <;> decide
  simp [this]

/-- The dependency triple of `useOnChangeReadOnlyWarning`'s effect that can
actually vary across renders (the name/prop-name strings are constant). -/
structure ROInput where
  isControlled : Bool
  hasOnChange : Bool
  readOnly : Bool
deriving DecidableEq, Repr

/-- `useOnChangeReadOnlyWarning`'s effect body: one warning exactly when
`isControlled && !onChange && !readOnly`. -/
def roWarnFire (i : ROInput) : ℕ :=
  if i.isControlled && !i.hasOnChange && !i.readOnly then 1 else 0

/-- Total read-only warnings over a lifetime, given the relevant dependency
values of each render: the effect re-runs exactly when they change. -/
def roWarningCount (renders : List ROInput) : ℕ :=
  ((effectRuns none renders).map roWarnFire).sum

/-- C8: a render sequence in which an `onChange` callback or the `readOnly`
flag is always supplied emits no read-only warning; one that is never
controlled emits none either; a controlled instance with neither, held on
constant inputs, emits the warning exactly once (at mount, once per
relevant input change thereafter — e.g. toggling `readOnly` off and on
around it re-fires it, giving two). -/
theorem C8_read_only_warning (renders : List ROInput) :
    ((∀ i ∈ renders, i.hasOnChange = true ∨ i.readOnly = true) →
      roWarningCount renders = 0) ∧
    ((∀ i ∈ renders, i.isControlled = false) → roWarningCount renders = 0) ∧
    (∀ n : ℕ, roWarningCount
      (List.replicate (n + 1) ⟨true, false, false⟩) = 1) ∧
    roWarningCount [⟨true, false, false⟩, ⟨true, false, true⟩,
      ⟨true, false, false⟩] = 2 := by
  refine ⟨?_, ?_, ?_, by decide⟩
  · intro h
    apply List.sum_eq_zero
    intro x hx
    rcases List.mem_map.mp hx with ⟨i, hi, rfl⟩
    rcases h i (effectRuns_subset none renders i hi) with h2 | h2 <;>
      simp [roWarnFire, h2]
  · intro h
    apply List.sum_eq_zero
    intro x hx
    rcases List.mem_map.mp hx with ⟨i, hi, rfl⟩
    simp [roWarnFire, h i (effectRuns_subset none renders i hi)]
  · intro n
    have h0 : ¬((none : Option ROInput) = some ⟨true, false, false⟩) := by simp
    simp [roWarningCount, List.replicate_succ, effectRuns, h0,
      effectRuns_replicate, roWarnFire]

/-- C8 witness: concrete render sequences for each suppression clause and
the fires-once clause. -/
theorem C8_read_only_warning_witness :
    roWarningCount [⟨true, true, false⟩] = 0 ∧
    roWarningCount [⟨false, false, false⟩] = 0 ∧
    roWarningCount (List.replicate 3 ⟨true, false, false⟩) = 1 := by
  exact ⟨(C8_read_only_warning [⟨true, true, false⟩]).1 (by decide),
    (C8_read_only_warning [⟨false, false, false⟩]).2.1 (by decide),
    (C8_read_only_warning []).2.2.1 2⟩

/-!
Prop getters. An event handler is modelled as a function from the event
arguments to the list of observable calls it performs (its trace);
`fn?.(...args)` on a missing handler performs nothing.
-/

/-- An event handler: arguments in, trace of performed calls out. -/
def Handler (α ε : Type) : Type := α → List ε

/-- `callAll(...fns) = (...args) => fns.forEach(fn => fn?.(...args))`: calls
each non-null handler in order with the same arguments, ignoring return
values (only the traces remain). -/
def callAll {α ε : Type} (fns : List (Option (Handler α ε))) : Handler α ε :=
  fun args =>
    (fns.map (fun fn => match fn with
      | some f => f args
      | none => [])).flatten

/-- A value stored in a props object. -/
inductive PropVal (α ε : Type) where
  | bool (b : Bool)
  | handler (h : Handler α ε)
  | nat (n : Nat)

/-- First value bound to a key in an association list. -/
def assocGet {V : Type} (k : String) : List (String × V) → Option V
  | [] => none
  | (a, v) :: rest => if k = a then some v else assocGet k rest

/-- Property read from a JS object literal built left to right: the last
entry with the key wins. -/
def jsGet {V : Type} (o : List (String × V)) (k : String) : Option V :=
  assocGet k o.reverse

/-- `getTogglerProps({onClick, ...props})`: returns
`{'aria-pressed': on, onClick: callAll(onClick, toggle), ...props}`. The
argument `onClick` is the destructured caller handler (absent = `none`) and
`props` are the remaining overrides, spread last. -/
def getTogglerProps {α ε : Type} («on» : Bool) (toggle : Handler α ε)
    (onClick : Option (Handler α ε)) (props : List (String × PropVal α ε)) :
    List (String × PropVal α ε) :=
  ("aria-pressed", PropVal.bool «on») ::
    ("onClick", PropVal.handler (callAll [onClick, some toggle])) :: props

/-- `getResetterProps({onClick, ...props})`: returns
`{onClick: callAll(onClick, reset), ...props}`. -/
def getResetterProps {α ε : Type} (reset : Handler α ε)
    (onClick : Option (Handler α ε)) (props : List (String × PropVal α ε)) :
    List (String × PropVal α ε) :=
  ("onClick", PropVal.handler (callAll [onClick, some reset])) :: props

theorem assocGet_append_left {V : Type} (l₁ l₂ : List (String × V))
    (k : String) (v : V) (h : assocGet k l₁ = some v) :
    assocGet k (l₁ ++ l₂) = some v := by
  induction l₁ with
  | nil => simp [assocGet] at h
  | cons p t ih =>
    obtain ⟨a, b⟩ := p
    rw [List.cons_append]
    rw [assocGet] at h ⊢
    by_cases hk : k = a
    · rw [if_pos hk] at h ⊢; exact h
    · rw [if_neg hk] at h ⊢; exact ih h

theorem assocGet_append_nokey {V : Type} (l₁ l₂ : List (String × V))
    (k : String) (h : ∀ p ∈ l₁, p.1 ≠ k) :
    assocGet k (l₁ ++ l₂) = assocGet k l₂ := by
  induction l₁ with
  | nil => rfl
  | cons p t ih =>
    obtain ⟨a, b⟩ := p
    rw [List.cons_append, assocGet]
    rw [if_neg (fun hk => h (a, b) (List.mem_cons_self _ _) hk.symm)]
    exact ih (fun q hq => h q (List.mem_cons_of_mem _ hq))

/-- C7: the `onClick` handler produced by `getTogglerProps` is
`callAll(onClick, toggle)`, which (a) calls the caller handler and then the
internal toggle handler, each exactly once, in that order, with the same
arguments (traces concatenate in order; on tagged one-call handlers the
trace is literally one call of each); (b) skips an absent caller handler;
and (c) every override other than `onClick` passes through into the
returned bundle (spread last, it wins any key clash). -/
theorem C7_getTogglerProps {α ε : Type} («on» : Bool) (f toggle : Handler α ε)
    (args : α) (onClick : Option (Handler α ε))
    (props : List (String × PropVal α ε)) (k : String) (v : PropVal α ε) :
    (callAll [some f, some toggle] args = f args ++ toggle args) ∧
    (callAll [some (fun a => [Sum.inl a]), some (fun a => [Sum.inr a])] args =
      [Sum.inl args, Sum.inr args]) ∧
    (callAll [none, some toggle] args = toggle args) ∧
    ((∀ p ∈ props, p.1 ≠ "onClick") →
      jsGet (getTogglerProps «on» toggle (some f) props) "onClick" =
        some (PropVal.handler (callAll [some f, some toggle]))) ∧
    (jsGet props k = some v →
      jsGet (getTogglerProps «on» toggle onClick props) k = some v) := by
  refine ⟨by simp [callAll], by simp [callAll], by simp [callAll], ?_, ?_⟩
  · intro h
    rw [jsGet, getTogglerProps, List.reverse_cons, List.reverse_cons,
      List.append_assoc]
    rw [assocGet_append_nokey]
    · rfl
    · intro p hp
      exact h p (List.mem_reverse.mp hp)
  · intro h
    rw [jsGet, getTogglerProps, List.reverse_cons, List.reverse_cons,
      List.append_assoc]
    exact assocGet_append_left _ _ _ _ h

/-- C7 witness: a concrete caller handler, toggle handler, and override. -/
theorem C7_getTogglerProps_witness :
    (callAll [some (fun n => [n + 1]), some (fun n => [n * 2])] (3 : ℕ) =
      [4, 6]) ∧
    jsGet (getTogglerProps (α := ℕ) (ε := ℕ) true (fun n => [n * 2])
        (some (fun n => [n + 1])) [("id", PropVal.nat 7)]) "id" =
      some (PropVal.nat 7) := by
  exact ⟨(C7_getTogglerProps true (fun n => [n + 1]) (fun n => [n * 2]) 3
      (some (fun n => [n + 1])) [("id", PropVal.nat 7)] "id"
      (PropVal.nat 7)).1,
    (C7_getTogglerProps true (fun n => [n + 1]) (fun n => [n * 2]) 3
      (some (fun n => [n + 1])) [("id", PropVal.nat 7)] "id"
      (PropVal.nat 7)).2.2.2.2 rfl⟩

/-!
The demo `App`. Two `Toggle` instances are controlled by the shared
`bothOn` value and share `handleToggleChange`; `bothOn` lives in a
`useState`, so it is `Option Bool` (it becomes `undefined` when
`setBothOn()` is called with no argument, exactly as the source does).
-/

/-- The `App` component's state plus the internal hook state of its two
shared-`on` `Toggle` children. -/
structure AppState where
  bothOn : Option Bool
  timesClicked : ℕ
  toggle1 : HookState
  toggle2 : HookState
deriving DecidableEq, Repr

/-- `handleToggleChange(state, action)`: ignores toggle actions once
`timesClicked > 4`; otherwise calls `setBothOn()` — with no argument, as
written in the source, storing `undefined` — and increments the counter.
The received `state` is not used by the source, hence the unused
parameter. -/
def handleToggleChange (app : AppState) (_state : Option ToggleState)
    (a : Action) : AppState :=
  if a.type = actionTypes.toggle ∧ app.timesClicked > 4 then app
  else { app with bothOn := none, timesClicked := app.timesClicked + 1 }

/-- The configuration `App` passes to each shared `Toggle`:
`on={bothOn}`, `onChange={handleToggleChange}`, no `readOnly`. -/
def appToggleCfg (app : AppState) : ToggleConfig :=
  { controlledOn := app.bothOn, hasOnChange := true }

/-- User events on the demo. -/
inductive AppEvent where
  | clickToggle1
  | clickToggle2
  | clickReset
deriving DecidableEq, Repr

/-- One user click on the demo: a toggle click runs that instance's
`toggle()` (via its toggler props) and then delivers the resulting
`onChange` invocations to `handleToggleChange`; the reset button runs
`handleResetClick` (`setBothOn(false); setTimesClicked(0)`). -/
def appStep (app : AppState) : AppEvent → AppState
  | .clickReset => { app with bothOn := some false, timesClicked := 0 }
  | .clickToggle1 =>
    let r := hookStep (appToggleCfg app) app.toggle1 .toggle
    r.2.foldl (fun a c => handleToggleChange a c.1 c.2)
      { app with toggle1 := r.1 }
  | .clickToggle2 =>
    let r := hookStep (appToggleCfg app) app.toggle2 .toggle
    r.2.foldl (fun a c => handleToggleChange a c.1 c.2)
      { app with toggle2 := r.1 }

/-- `App`'s initial state: `useState(false)`, `useState(0)`, and two
`Toggle` children with default `initialOn = false`. -/
def appInit : AppState :=
  { bothOn := some false, timesClicked := 0,
    toggle1 := initHook false, toggle2 := initHook false }

/-- The `on` value the first shared `Toggle` reports (drives its Switch). -/
def appToggle1On (app : AppState) : Bool :=
  reportedOn (appToggleCfg app) app.toggle1

/-- The `on` value the second shared `Toggle` reports. -/
def appToggle2On (app : AppState) : Bool :=
  reportedOn (appToggleCfg app) app.toggle2

/-- C3 (the code at the failing input): from the initial demo state, one
click on the first `Toggle` leaves `bothOn` `undefined` — `setBothOn()` is
called with no argument — so both instances drop out of controlled mode and
report `false`, instead of the lockstep `true` the claim describes; the
counter still increments. -/
theorem C3_first_click_breaks_lockstep :
    (appStep appInit .clickToggle1).bothOn = none ∧
    (appStep appInit .clickToggle1).timesClicked = 1 ∧
    appToggle1On (appStep appInit .clickToggle1) = false ∧
    appToggle2On (appStep appInit .clickToggle1) = false := by
  decide

end ControlProps
